import Mathlib

/-!
Shallow embedding of `CutPDFTools/SplitPDFTool.py` (pixel geometry of the
crop/split pipeline, filename-based selection, and the batch orchestration),
with theorems settling the spec claims about it.
-/

/-- Raster image dimensions in pixels, the part of a PIL image the geometry
claims observe. -/
structure ImageSize where
  width : Nat
  height : Nat
deriving DecidableEq

/-- Margins namedtuple from the source, field order `left, top, right, bottom`. -/
structure Margins where
  left : Nat
  top : Nat
  right : Nat
  bottom : Nat
deriving DecidableEq

/-- The module constant `Pdf2Image_Default_Dpi = 300` (SplitPDFTool.py line 21). -/
def Pdf2Image_Default_Dpi : Nat := 300

/-- The local `dpiRatio = 300 // Pdf2Image_Default_Dpi` of `CropImageFile`
(line 58), parametrised by the module constant. Python `//` on non-negative
ints is `Nat` division. -/
def dpiRatio (dpi : Nat) : Nat := 300 / dpi

/-- Size of the result of PIL `Image.crop((L, T, R, B))`: Pillow raises
`ValueError` when `R < L` or `B < T` (modelled as `none`), otherwise the
result has size `(R - L, B - T)`; the box may extend past the image. -/
def pilCropSize (L T R B : Int) : Option ImageSize :=
  if R < L then none
  else if B < T then none
  else some ⟨(R - L).toNat, (B - T).toNat⟩

/-- Pixel-size behaviour of `CropImageFile` (lines 48-73): each margin is
floor-divided by `dpiRatio` and the crop box is
`(leftMargin // dpiRatio, topMargin // dpiRatio, width - rightMargin // dpiRatio,
height - bottomMargin // dpiRatio)`. When `dpiRatio = 0` every Python `// 0`
raises `ZeroDivisionError`, modelled as `none`. -/
def CropImageFile (dpi : Nat) (size : ImageSize)
    (leftMargin topMargin rightMargin bottomMargin : Nat) : Option ImageSize :=
  if dpiRatio dpi = 0 then none
  else
    pilCropSize ((leftMargin / dpiRatio dpi : Nat) : Int)
      ((topMargin / dpiRatio dpi : Nat) : Int)
      ((size.width : Int) - ((rightMargin / dpiRatio dpi : Nat) : Int))
      ((size.height : Int) - ((bottomMargin / dpiRatio dpi : Nat) : Int))

/-- Pixel-size behaviour of `SplitCroppedIntoA4Files` (lines 77-94):
`half_width = width // 2`, left image is `crop((0, 0, half_width, height))`,
right image is `crop((half_width, 0, width, height))`, returned left-then-right. -/
def SplitCroppedIntoA4Files (size : ImageSize) : Option (ImageSize × ImageSize) :=
  match pilCropSize 0 0 ((size.width / 2 : Nat) : Int) (size.height : Int),
      pilCropSize ((size.width / 2 : Nat) : Int) 0 (size.width : Int) (size.height : Int) with
  | some leftImage, some rightImage => some (leftImage, rightImage)
  | _, _ => none

/-- Margin arguments that `ProcessPDFFiles` passes to `CropImageFile` for the
page with numeric filename index `number` (lines 258-270): with
`reverseLeftAndRight` enabled, odd pages get the margins as given and even
pages get left and right swapped; with it disabled the call is
`CropImageFile(imageFilename)`, whose margin defaults are all zero. -/
def cropCallMargins (reverseLeftAndRight : Bool) (cropMargins : Margins)
    (number : Nat) : Margins :=
  if reverseLeftAndRight then
    if number % 2 = 1 then cropMargins
    else ⟨cropMargins.right, cropMargins.top, cropMargins.left, cropMargins.bottom⟩
  else ⟨0, 0, 0, 0⟩

/-- Claim C1: for margins whose scaled pixel values satisfy
`leftPx + rightPx < W` and `topPx + bottomPx < H` (each margin converted by
integer floor division by the DPI ratio), `CropImageFile` on a `W × H` image
produces an image of dimensions `(W - leftPx - rightPx) × (H - topPx - bottomPx)`. -/
theorem CropImageFile_output_dims (dpi W H l t r b : Nat)
    (hρ : 0 < dpiRatio dpi)
    (hw : l / dpiRatio dpi + r / dpiRatio dpi < W)
    (hh : t / dpiRatio dpi + b / dpiRatio dpi < H) :
    CropImageFile dpi ⟨W, H⟩ l t r b =
      some ⟨W - l / dpiRatio dpi - r / dpiRatio dpi,
            H - t / dpiRatio dpi - b / dpiRatio dpi⟩ := by
  have hρ' : dpiRatio dpi ≠ 0 := Nat.pos_iff_ne_zero.mp hρ
  simp only [CropImageFile, pilCropSize, hρ', if_false]
  have h1 : ¬ ((W : Int) - (r / dpiRatio dpi : Nat) < (l / dpiRatio dpi : Nat)) := by
    omega
  have h2 : ¬ ((H : Int) - (b / dpiRatio dpi : Nat) < (t / dpiRatio dpi : Nat)) := by
    omega
  rw [if_neg h1, if_neg h2]
  congr 1
  congr 1
  · omega
  · omega

/-- Witness for C1 at the spec's end-to-end scenario 3: margins
(160,160,160,160) on a 3000 × 4000 page at the reference DPI. -/
theorem CropImageFile_output_dims_witness :
    CropImageFile 300 ⟨3000, 4000⟩ 160 160 160 160 =
      some ⟨3000 - 160 / dpiRatio 300 - 160 / dpiRatio 300,
            4000 - 160 / dpiRatio 300 - 160 / dpiRatio 300⟩ :=
  CropImageFile_output_dims 300 3000 4000 160 160 160 160
    (by decide) (by decide) (by decide)

/-- Claim C2: splitting a `W × H` image yields left then right halves with
`leftHalf.width = W / 2`, widths summing to `W` (the right half is one pixel
wider exactly when `W` is odd), and both halves of height `H`. -/
theorem SplitCroppedIntoA4Files_dims (W H : Nat) :
    SplitCroppedIntoA4Files ⟨W, H⟩ = some (⟨W / 2, H⟩, ⟨W - W / 2, H⟩)
    ∧ W / 2 + (W - W / 2) = W
    ∧ (W - W / 2 = W / 2 + 1 ↔ W % 2 = 1) := by
  refine ⟨?_, by omega, by omega⟩
  simp only [SplitCroppedIntoA4Files, pilCropSize]
  have h1 : ¬ (((W / 2 : Nat) : Int) < 0) := by omega
  have h2 : ¬ ((H : Int) < 0) := by omega
  have h3 : ¬ ((W : Int) < ((W / 2 : Nat) : Int)) := by omega
  rw [if_neg h1, if_neg h2, if_neg h3, if_neg h2]
  have e1 : (((W / 2 : Nat) : Int) - 0).toNat = W / 2 := by omega
  have e2 : ((H : Int) - 0).toNat = H := by omega
  have e3 : ((W : Int) - ((W / 2 : Nat) : Int)).toNat = W - W / 2 := by omega
  rw [e1, e2, e3]

/-- Claim C4: with parity reversal enabled, pages with odd numeric index crop
with the margins exactly as supplied, pages with even index crop with left and
right swapped, and top and bottom match between the two. -/
theorem cropCallMargins_parity (m : Margins) (k : Nat) :
    cropCallMargins true m (2 * k + 1) = m
    ∧ cropCallMargins true m (2 * k + 2) = ⟨m.right, m.top, m.left, m.bottom⟩
    ∧ (cropCallMargins true m (2 * k + 1)).top = (cropCallMargins true m (2 * k + 2)).top
    ∧ (cropCallMargins true m (2 * k + 1)).bottom = (cropCallMargins true m (2 * k + 2)).bottom := by
  have hodd : (2 * k + 1) % 2 = 1 := by omega
  have heven : ¬ ((2 * k + 2) % 2 = 1) := by omega
  simp only [cropCallMargins, if_true, hodd, if_pos, heven, if_neg, if_false]
  exact ⟨trivial, trivial, trivial, trivial⟩

/-- Claim C5 evaluation at the failing input: with parity reversal disabled the
orchestrator calls `CropImageFile` with its default all-zero margins, ignoring
the supplied margins (160,160,160,160). -/
theorem cropCallMargins_disabled_ignores :
    cropCallMargins false ⟨160, 160, 160, 160⟩ 1 = ⟨0, 0, 0, 0⟩
    ∧ cropCallMargins false ⟨160, 160, 160, 160⟩ 1 ≠ ⟨160, 160, 160, 160⟩ := by
  exact ⟨rfl, by decide⟩

/-- Claim C10: with the shipped constant the DPI ratio is `300 // 300 = 1` and
margins pass through to the crop box unscaled; for any configured DPI above 300
the ratio floors to 0 and every margin conversion divides by zero, so
`CropImageFile` fails on every page. -/
theorem dpiRatio_behavior :
    dpiRatio Pdf2Image_Default_Dpi = 1
    ∧ (∀ W H l t r b : Nat,
        CropImageFile Pdf2Image_Default_Dpi ⟨W, H⟩ l t r b =
          pilCropSize (l : Int) (t : Int) ((W : Int) - (r : Int)) ((H : Int) - (b : Int)))
    ∧ (∀ dpi : Nat, 300 < dpi → ∀ W H l t r b : Nat,
        CropImageFile dpi ⟨W, H⟩ l t r b = none) := by
  refine ⟨rfl, ?_, ?_⟩
  · intro W H l t r b
    simp [CropImageFile, dpiRatio, Pdf2Image_Default_Dpi]
  · intro dpi hdpi W H l t r b
    have h0 : dpiRatio dpi = 0 := Nat.div_eq_of_lt hdpi
    simp [CropImageFile, h0]

/-- Witness for C10: concretely, at the shipped DPI the ratio is 1 and a crop
passes margins through unscaled, while DPI 600 makes every crop fail. -/
theorem dpiRatio_behavior_witness :
    dpiRatio Pdf2Image_Default_Dpi = 1
    ∧ CropImageFile Pdf2Image_Default_Dpi ⟨3000, 4000⟩ 5 6 7 8 =
        pilCropSize (5 : Int) (6 : Int) ((3000 : Int) - (7 : Int)) ((4000 : Int) - (8 : Int))
    ∧ CropImageFile 600 ⟨3000, 4000⟩ 5 6 7 8 = none :=
  ⟨dpiRatio_behavior.1,
   dpiRatio_behavior.2.1 3000 4000 5 6 7 8,
   dpiRatio_behavior.2.2 600 (by decide) 3000 4000 5 6 7 8⟩

/-- Python substring containment `needle in hay` over character lists: true
iff `needle` occurs contiguously inside `hay`. -/
def containsSeg (hay needle : List Char) : Bool :=
  match hay with
  | [] => needle.isEmpty
  | _ :: t => needle.isPrefixOf hay || containsSeg t needle

/-- Python substring test `needle in hay` for strings. -/
def strContains (hay needle : String) : Bool :=
  containsSeg hay.data needle.data

/-- `pathlib.Path.stem` on a bare filename: the name without its final
extension, where the extension exists only when the last dot is neither the
first nor the last character. -/
def pathStem (name : String) : String :=
  if 1 < (name.data.reverse.dropWhile (fun c => c != '.')).length
      ∧ (name.data.reverse.dropWhile (fun c => c != '.')).length < name.data.length then
    ⟨((name.data.reverse.dropWhile (fun c => c != '.')).tail).reverse⟩
  else name

/-- The glob pattern `*_cropped_A4_*.png` used by `MergeImagesAsPDFFile`
(line 139): the name ends in `.png` and contains `_cropped_A4_` before that. -/
def matchesCroppedA4 (name : String) : Bool :=
  List.isSuffixOf ".png".data name.data
    && containsSeg (name.data.take (name.data.length - 4)) "_cropped_A4_".data

/-- Behaviour of `MergeImagesAsPDFFile` (lines 133-160) as far as the claims
observe it: the output PDF name is `<dirStem>_A4.pdf`, and the assembled pages
are exactly the `*_cropped_A4_*.png` entries of the directory listing, appended
in the raw order the listing returns them (no sorting). -/
def MergeImagesAsPDFFile (dirStem : String) (listing : List String) :
    String × List String :=
  (dirStem ++ "_A4.pdf", listing.filter (fun n => matchesCroppedA4 n))

/-- Per-file outcome of the selection logic at the top of the processing loop
of `ProcessPDFFiles` (lines 222-243). -/
inductive FileAction where
  | skipped
  | ignored
  | processed
deriving DecidableEq

/-- The include/exclude configuration of a batch run; each pattern, when set,
is abstracted as the boolean result of `re.search` on a filename. -/
structure FilterSpec where
  includePattern : Option (String → Bool)
  excludePattern : Option (String → Bool)

/-- Selection logic of the processing loop (lines 222-243): a file whose stem
contains `_A4` is skipped unconditionally first; then the include pattern, then
the exclude pattern may ignore it; otherwise it is processed. -/
def fileDecision (fspec : FilterSpec) (stem name : String) : FileAction :=
  if strContains stem "_A4" then FileAction.skipped
  else if (match fspec.includePattern with
    | some p => !(p name)
    | none => false) then FileAction.ignored
  else if (match fspec.excludePattern with
    | some p => p name
    | none => false) then FileAction.ignored
  else FileAction.processed

/-- A name list is a prefix of itself. -/
theorem isPrefixOf_self (l : List Char) : l.isPrefixOf l = true := by
  induction l with
  | nil => rfl
  | cons c t ih => simp [List.isPrefixOf, ih]

/-- A list is a prefix of itself extended on the right. -/
theorem isPrefixOf_append_self (l t : List Char) : l.isPrefixOf (l ++ t) = true := by
  induction l with
  | nil => simp
  | cons c l' ih => simp [List.isPrefixOf, ih]

/-- A prefix occurrence is a substring occurrence. -/
theorem containsSeg_of_prefixOf (hay needle : List Char)
    (h : needle.isPrefixOf hay = true) : containsSeg hay needle = true := by
  cases hay with
  | nil =>
    cases needle with
    | nil => rfl
    | cons c t => simp [List.isPrefixOf] at h
  | cons c t => simp [containsSeg, h]

/-- Substring occurrences survive extending the haystack on the left. -/
theorem containsSeg_append_left (l : List Char) {hay needle : List Char}
    (h : containsSeg hay needle = true) : containsSeg (l ++ hay) needle = true := by
  induction l with
  | nil => exact h
  | cons c l' ih => simp [containsSeg, ih]

/-- Every list contains its own suffix. -/
theorem containsSeg_append_self (l n : List Char) : containsSeg (l ++ n) n = true := by
  apply containsSeg_append_left
  exact containsSeg_of_prefixOf n n (isPrefixOf_self n)

/-- String append acts as list append on the character data. -/
theorem strData_append (s t : String) : (s ++ t).data = s.data ++ t.data := by
  cases s
  cases t
  rfl

/-- The stem of a generated `<stem>_A4.pdf` filename is `<stem>_A4`. -/
theorem pathStem_append_A4pdf (s : String) :
    pathStem (s ++ "_A4.pdf") = ⟨s.data ++ ('_' :: 'A' :: '4' :: [])⟩ := by
  have h1 : (s ++ "_A4.pdf").data
      = s.data ++ ('_' :: 'A' :: '4' :: '.' :: 'p' :: 'd' :: 'f' :: []) := by
    rw [strData_append]
  have h2 : (s ++ "_A4.pdf").data.reverse
      = 'f' :: 'd' :: 'p' :: '.' :: '4' :: 'A' :: '_' :: s.data.reverse := by
    rw [h1, List.reverse_append]
    rfl
  have h3 : (s ++ "_A4.pdf").data.reverse.dropWhile (fun c => c != '.')
      = '.' :: '4' :: 'A' :: '_' :: s.data.reverse := by
    rw [h2]
    rfl
  unfold pathStem
  rw [h3, h1]
  have hcond : 1 < ('.' :: '4' :: 'A' :: '_' :: s.data.reverse).length
      ∧ ('.' :: '4' :: 'A' :: '_' :: s.data.reverse).length
        < (s.data ++ ('_' :: 'A' :: '4' :: '.' :: 'p' :: 'd' :: 'f' :: [])).length := by
    simp only [List.length_cons, List.length_append, List.length_reverse]
    omega
  rw [if_pos hcond]
  congr 1
  simp

/-- Claim C3 evaluation at the failing input: `MergeImagesAsPDFFile` keeps the
raw listing order, so a listing that returns column 02 before column 01
assembles the pages out of numeric page/column order. -/
theorem MergeImagesAsPDFFile_listing_order :
    (MergeImagesAsPDFFile "01" ["01_cropped_A4_02.png", "01_cropped_A4_01.png"]).2
      = ["01_cropped_A4_02.png", "01_cropped_A4_01.png"]
    ∧ (["01_cropped_A4_02.png", "01_cropped_A4_01.png"] : List String)
      ≠ ["01_cropped_A4_01.png", "01_cropped_A4_02.png"] := by
  exact ⟨by decide, by decide⟩

/-- Claim C6: every output filename of `MergeImagesAsPDFFile` contains `_A4`
(both the filename and its stem), any file whose stem contains `_A4` is
skipped unconditionally regardless of the filter patterns, and in particular a
generated output file is skipped on a later run. -/
theorem generated_output_skipped (dirStem : String) (listing : List String)
    (fspec : FilterSpec) (s name2 : String)
    (hs : strContains s "_A4" = true) :
    strContains (MergeImagesAsPDFFile dirStem listing).1 "_A4" = true
    ∧ strContains (pathStem (MergeImagesAsPDFFile dirStem listing).1) "_A4" = true
    ∧ fileDecision fspec s name2 = FileAction.skipped
    ∧ fileDecision fspec (pathStem (MergeImagesAsPDFFile dirStem listing).1) name2
        = FileAction.skipped := by
  have hname : (MergeImagesAsPDFFile dirStem listing).1 = dirStem ++ "_A4.pdf" := rfl
  have hfile : strContains (dirStem ++ "_A4.pdf") "_A4" = true := by
    unfold strContains
    rw [strData_append]
    have : ("_A4.pdf").data = ('_' :: 'A' :: '4' :: []) ++ ('.' :: 'p' :: 'd' :: 'f' :: []) := rfl
    rw [this, show ("_A4").data = ('_' :: 'A' :: '4' :: []) from rfl]
    exact containsSeg_append_left _ (containsSeg_of_prefixOf _ _ (isPrefixOf_append_self _ _))
  have hstem : strContains (pathStem (dirStem ++ "_A4.pdf")) "_A4" = true := by
    rw [pathStem_append_A4pdf]
    unfold strContains
    rw [show ("_A4").data = ('_' :: 'A' :: '4' :: []) from rfl]
    exact containsSeg_append_self _ _
  refine ⟨by rw [hname]; exact hfile, by rw [hname]; exact hstem, ?_, ?_⟩
  · unfold fileDecision
    rw [hs]
    rfl
  · unfold fileDecision
    rw [hname, hstem]
    rfl

/-- Concrete filter configuration whose include pattern matches nothing, used
to witness that the skip rule fires before filtering. -/
def fspecNoMatch : FilterSpec := ⟨some (fun _ => false), none⟩

/-- Witness for C6: the generated name `quiz_A4.pdf` contains `_A4`, and a file
stem containing `_A4` is skipped even under an include pattern that matches
nothing. -/
theorem generated_output_skipped_witness :
    strContains (MergeImagesAsPDFFile "quiz" []).1 "_A4" = true
    ∧ strContains (pathStem (MergeImagesAsPDFFile "quiz" []).1) "_A4" = true
    ∧ fileDecision fspecNoMatch "exam_A4" "exam_A4.pdf" = FileAction.skipped
    ∧ fileDecision fspecNoMatch (pathStem (MergeImagesAsPDFFile "quiz" []).1) "exam_A4.pdf"
        = FileAction.skipped :=
  generated_output_skipped "quiz" [] fspecNoMatch "exam_A4" "exam_A4.pdf" (by decide)

/-- File-store effect of `AddPageNumberIntoImage` (lines 98-129): the image at
`path` is opened (its size read), a new canvas of exactly the same
`(width, height)` is created, captioned, and saved back to the same `path`;
the function returns that path. A missing file makes `Image.open` raise,
modelled by leaving the store unchanged and returning no path. -/
def AddPageNumberIntoImage (store : String → Option ImageSize) (path : String) :
    (String → Option ImageSize) × Option String :=
  match store path with
  | none => (store, none)
  | some sz =>
    (fun q => if q = path then some ⟨sz.width, sz.height⟩ else store q, some path)

/-- Claim C7: for an image of size `w × h` at `path`, `AddPageNumberIntoImage`
persists to the same `path` an image of exactly size `w × h` (no extra vertical
room), overwriting the original, returns that path, and leaves every other
path untouched. -/
theorem AddPageNumberIntoImage_same_size (store : String → Option ImageSize)
    (path q : String) (w h : Nat) (hopen : store path = some ⟨w, h⟩) :
    (AddPageNumberIntoImage store path).1 path = some ⟨w, h⟩
    ∧ (AddPageNumberIntoImage store path).2 = some path
    ∧ (q ≠ path → (AddPageNumberIntoImage store path).1 q = store q) := by
  unfold AddPageNumberIntoImage
  rw [hopen]
  refine ⟨?_, ?_, ?_⟩
  · simp
  · rfl
  · intro hq
    simp [hq]

/-- Concrete one-file store for the C7 witness. -/
def storeOneSplit : String → Option ImageSize :=
  fun p => if p = "01_cropped_A4_01.png" then some ⟨1340, 3680⟩ else none

/-- Witness for C7 on a concrete store holding one 1340 × 3680 split artifact. -/
theorem AddPageNumberIntoImage_same_size_witness :
    (AddPageNumberIntoImage storeOneSplit "01_cropped_A4_01.png").1 "01_cropped_A4_01.png"
        = some ⟨1340, 3680⟩
    ∧ (AddPageNumberIntoImage storeOneSplit "01_cropped_A4_01.png").2
        = some "01_cropped_A4_01.png"
    ∧ ("02.png" ≠ "01_cropped_A4_01.png" →
        (AddPageNumberIntoImage storeOneSplit "01_cropped_A4_01.png").1 "02.png"
          = storeOneSplit "02.png") :=
  AddPageNumberIntoImage_same_size storeOneSplit "01_cropped_A4_01.png" "02.png"
    1340 3680 rfl

/-- A candidate source PDF in the target directory: its stem and its rasterized
pages, `none` when the rasterizer (`convert_from_path`) raises on it. -/
structure PdfFile where
  stem : String
  pages : Option (List ImageSize)

/-- Outcome of one batch run of `ProcessPDFFiles`: whether the missing-directory
message was the only output, the `count` and `ignore` tallies, the stems
processed to completion in order, and the stem at which an uncaught exception
escaped the loop, if any. -/
structure RunResult where
  missingDirReported : Bool
  count : Nat
  ignore : Nat
  processed : List String
  raised : Option String
deriving DecidableEq

/-- The per-file loop of `ProcessPDFFiles` (lines 222-287): each file is
skipped, ignored (incrementing `ignore`), or processed (incrementing `count`);
the loop body has no exception handler, so a rasterizer failure propagates out
immediately, recorded here as `raised` with the remaining files untouched. -/
def runLoop (fspec : FilterSpec) : List PdfFile → Nat → Nat → List String → RunResult
  | [], count, ignore, acc => ⟨false, count, ignore, acc.reverse, none⟩
  | f :: rest, count, ignore, acc =>
    match fileDecision fspec f.stem (f.stem ++ ".pdf") with
    | FileAction.skipped => runLoop fspec rest count ignore acc
    | FileAction.ignored => runLoop fspec rest count (ignore + 1) acc
    | FileAction.processed =>
      match f.pages with
      | none => ⟨false, count + 1, ignore, acc.reverse, some f.stem⟩
      | some _ => runLoop fspec rest (count + 1) ignore (f.stem :: acc)

/-- `ProcessPDFFiles` (lines 164-288) at the orchestration level: a missing
target directory (`dirContents = none`) is reported and the function returns at
once (lines 187-189); otherwise the per-file loop runs over the listed PDFs. -/
def ProcessPDFFiles (dirContents : Option (List PdfFile)) (fspec : FilterSpec) :
    RunResult :=
  match dirContents with
  | none => ⟨true, 0, 0, [], none⟩
  | some files => runLoop fspec files 0 0 []

/-- Claim C8: on a missing target directory `ProcessPDFFiles` reports the
condition and returns without raising, with zero files processed and no
partial state, whatever the filter configuration. -/
theorem ProcessPDFFiles_missing_dir (fspec : FilterSpec) :
    ProcessPDFFiles none fspec =
      ⟨true, 0, 0, [], none⟩ := rfl

/-- Claim C9 counterexample: with a corrupt first PDF (`exam01`, rasterizer
raises) followed by a readable one (`exam02`), the run aborts at `exam01` with
the exception escaping and `exam02` is never processed, contradicting the
claim that the batch proceeds to the next candidate file. -/
theorem ProcessPDFFiles_abort_cex :
    ProcessPDFFiles
        (some [⟨"exam01", none⟩, ⟨"exam02", some [⟨100, 100⟩]⟩]) ⟨none, none⟩
      = ⟨false, 1, 0, [], some "exam01"⟩
    ∧ "exam02" ∉ (ProcessPDFFiles
        (some [⟨"exam01", none⟩, ⟨"exam02", some [⟨100, 100⟩]⟩]) ⟨none, none⟩).processed := by
  exact ⟨rfl, by decide⟩

/-- Claim C9 as amended: a failure while processing one file propagates out of
`ProcessPDFFiles` and aborts the batch; the result is independent of the
remaining candidate files, so none of them is processed. -/
theorem ProcessPDFFiles_abort_propagates (fspec : FilterSpec) (f : PdfFile)
    (rest : List PdfFile) (count ignore : Nat) (acc : List String)
    (hdec : fileDecision fspec f.stem (f.stem ++ ".pdf") = FileAction.processed)
    (hfail : f.pages = none) :
    runLoop fspec (f :: rest) count ignore acc
      = ⟨false, count + 1, ignore, acc.reverse, some f.stem⟩ := by
  unfold runLoop
  rw [hdec, hfail]

/-- Witness for the amended C9: a corrupt file that survives filtering aborts
the loop at once, whatever follows it. -/
theorem ProcessPDFFiles_abort_propagates_witness :
    runLoop ⟨none, none⟩ [⟨"exam01", none⟩, ⟨"exam02", some [⟨100, 100⟩]⟩] 0 0 []
      = ⟨false, 1, 0, [], some "exam01"⟩ :=
  ProcessPDFFiles_abort_propagates ⟨none, none⟩ ⟨"exam01", none⟩
    [⟨"exam02", some [⟨100, 100⟩]⟩] 0 0 [] rfl rfl
